import Mathlib

/-!
Shallow embedding of the scheduling, booking-conflict, status-transition,
review-rating and reminder logic of the appointment portal
(`appointment/models.py`, `appointment/views.py`, `appointment/signals.py`,
`appointment/management/commands/send_reminders.py`).

Times of day are modelled in minutes after midnight (a `TimeField`),
calendar dates as proleptic-Gregorian triples with the same ordinal-day
numbering as the source language runtime (`date.toordinal`), and datetimes
(`DateTimeField`) as total minutes, ordinal-day times 1440 plus time of day.
-/

/-- A calendar date, year/month/day, as stored in a DateField. -/
structure Date where
  year : Nat
  month : Nat
  day : Nat
deriving DecidableEq

/-- Gregorian leap-year test, as in the runtime calendar. -/
def isLeap (y : Nat) : Bool :=
  y % 4 == 0 && (y % 100 != 0 || y % 400 == 0)

/-- Cumulative day counts before each month in a non-leap year. -/
def monthOffsets : List Nat :=
  [0, 31, 59, 90, 120, 151, 181, 212, 243, 273, 304, 334]

/-- Days in the given year that precede the first day of month `m` (1-based). -/
def daysBeforeMonth (y m : Nat) : Nat :=
  monthOffsets.getD (m - 1) 0 + (if 2 < m && isLeap y then 1 else 0)

/-- Proleptic-Gregorian ordinal day number of a date; day 1 is 0001-01-01,
matching `date.toordinal` in the source runtime. -/
def toOrdinal (d : Date) : Nat :=
  365 * (d.year - 1) + (d.year - 1) / 4 - (d.year - 1) / 100 + (d.year - 1) / 400
    + daysBeforeMonth d.year d.month + d.day

/-- Day of week of a date with Monday = 0, as `date.weekday()` computes it. -/
def pythonWeekday (d : Date) : Nat :=
  (toOrdinal d - 1) % 7

/-- A datetime (`combine(date, time)`) as total minutes: ordinal day times
1440 plus minutes after midnight. -/
def combineMinutes (d : Date) (t : Nat) : Nat :=
  toOrdinal d * 1440 + t

/-- The eight recognized appointment status values
(`Appointment.STATUS_CHOICES`). -/
def validStatuses : List String :=
  ["pending", "approved", "scheduled", "completed",
   "cancelled", "no_show", "rescheduled", "rejected"]

/-- The live statuses used by every conflict / booked-slot filter:
`status__in=['pending', 'approved', 'scheduled']`. -/
def liveStatuses : List String :=
  ["pending", "approved", "scheduled"]

/-- The `Doctor` model: only the fields the verified paths touch. The
denormalized average rating is held in hundredths (two decimals). -/
structure Doctor where
  id : Nat
  name : String
  averageRatingCenti : Nat
  totalReviews : Nat
deriving DecidableEq

/-- The `Appointment` model: the fields read or written by booking,
conflict checking, status updates, reminders and slot generation. -/
structure Appointment where
  id : Nat
  patientName : String
  patientEmail : String
  patientPhone : String
  doctorId : Nat
  appointmentDate : Date
  appointmentTime : Nat
  status : String
  priority : String
  reason : String
  notes : String
  cancellationReason : String
  confirmedAt : Option Nat
  completedAt : Option Nat
  updatedAt : Option Nat
  userId : Option Nat
deriving DecidableEq

/-- The `Review` model fields used by the rating recomputation. -/
structure Review where
  doctorId : Nat
  patientId : Nat
  appointmentId : Option Nat
  rating : Nat
  isApproved : Bool
deriving DecidableEq

/-- The `StatusHistory` model: append-only log entries. -/
structure StatusHistory where
  appointmentId : Nat
  oldStatus : String
  newStatus : String
  changedById : Option Nat
  reason : String
deriving DecidableEq

/-- The `Notification` model fields the verified paths create. -/
structure Notification where
  userId : Nat
  appointmentId : Option Nat
  ntype : String
  title : String
  message : String
deriving DecidableEq

/-- The `DoctorSchedule` model: one weekly-availability row. -/
structure DoctorSchedule where
  doctorId : Nat
  dayOfWeek : String
  startTime : Nat
  endTime : Nat
  isAvailable : Bool
  maxAppointments : Nat
  slotDuration : Nat
deriving DecidableEq

/-- The `TimeBlock` model: a blocked datetime interval, endpoints as total
minutes. -/
structure TimeBlock where
  doctorId : Nat
  startDT : Nat
  endDT : Nat
  reason : String
deriving DecidableEq

/-- The `AppointmentReminder` model. The offset before the appointment is
held in minutes (the source stores float hours from the choices 24, 2, 1
and 0.5, all exact in minutes); `scheduledFor` is a datetime in total
minutes, as an integer so subtraction is exact. -/
structure AppointmentReminder where
  id : Nat
  appointmentId : Nat
  reminderType : String
  hoursBeforeMinutes : Nat
  isSent : Bool
  sentAt : Option Int
  sentVia : Option String
  errorMessage : Option String
  scheduledFor : Int
deriving DecidableEq

/-- One user row: id and username (signals resolve the doctor user by
matching username against the doctor name). -/
structure UserRec where
  id : Nat
  username : String
deriving DecidableEq

/-- The datastore state the verified operations read and write. -/
structure PortalState where
  users : List UserRec
  doctors : List Doctor
  appointments : List Appointment
  history : List StatusHistory
  notifications : List Notification
  schedules : List DoctorSchedule
  timeBlocks : List TimeBlock
deriving DecidableEq

/-- Collision filter of `book_appointment`: an appointment for the same
doctor, date and time already exists in a live status. -/
def bookingConflictExists (appts : List Appointment) (docId : Nat) (d : Date) (t : Nat) : Bool :=
  appts.any (fun a =>
    a.doctorId == docId && a.appointmentDate == d && a.appointmentTime == t &&
    liveStatuses.contains a.status)

/-- Collision filter of `reschedule_appointment`: same as the booking
filter but excluding the appointment being moved (`exclude(id=...)`). -/
def rescheduleConflictExists (appts : List Appointment) (docId : Nat) (d : Date) (t : Nat)
    (excludeId : Nat) : Bool :=
  appts.any (fun a =>
    a.doctorId == docId && a.appointmentDate == d && a.appointmentTime == t &&
    liveStatuses.contains a.status && a.id != excludeId)

/-- Loop body of `get_available_time_slots`: walk hourly from `cur` while
`cur < endT`, keeping times not in `booked`. Fuel bounds the loop, which
advances by 60 each step. -/
def availWalkAux : Nat → List Nat → Nat → Nat → List Nat
  | 0, _, _, _ => []
  | fuel + 1, booked, cur, endT =>
    if cur < endT then
      if booked.contains cur then availWalkAux fuel booked (cur + 60) endT
      else cur :: availWalkAux fuel booked (cur + 60) endT
    else []

/-- Unfiltered hourly walk, for characterizing `availWalkAux`. -/
def hourWalkAux : Nat → Nat → Nat → List Nat
  | 0, _, _ => []
  | fuel + 1, cur, endT =>
    if cur < endT then cur :: hourWalkAux fuel (cur + 60) endT
    else []

/-- `get_available_time_slots(doctor, date)` from views.py: empty for a
missing date, else the 09:00(540)..17:00(1020) hourly walk minus the times
of live appointments of that doctor on that date. Takes the whole state to
make explicit that schedules and time blocks are not consulted. -/
def get_available_time_slots (st : PortalState) (docId : Nat) (date : Option Date) : List Nat :=
  match date with
  | none => []
  | some d =>
    let booked := (st.appointments.filter (fun a =>
        a.doctorId == docId && a.appointmentDate == d &&
        liveStatuses.contains a.status)).map (fun a => a.appointmentTime)
    availWalkAux 1021 booked 540 1020

/-- Loop of `DoctorSchedule.get_time_slots`: emit `cur` while the full
slot fits (`cur + dur ≤ endT`), stepping by `dur`. Fuel bounds the loop,
which terminates for positive `dur`. -/
def getTimeSlotsAux : Nat → Nat → Nat → Nat → List Nat
  | 0, _, _, _ => []
  | fuel + 1, cur, endT, dur =>
    if cur + dur ≤ endT then cur :: getTimeSlotsAux fuel (cur + dur) endT dur
    else []

/-- `DoctorSchedule.get_time_slots` from models.py. -/
def get_time_slots (startT endT dur : Nat) : List Nat :=
  getTimeSlotsAux (endT + 1) startT endT dur

/-- Slot loop of `get_available_slots_v2`: as `get_time_slots` but a slot
is dropped when booked or when its start lies in a block, tested as
time-of-day: `block_start ≤ slot < block_end` with endpoints mod 1440. -/
def slotWalkV2Aux : Nat → Nat → Nat → Nat → List Nat → List TimeBlock → List Nat
  | 0, _, _, _, _, _ => []
  | fuel + 1, cur, endT, dur, booked, blocks =>
    if cur + dur ≤ endT then
      if booked.contains cur then slotWalkV2Aux fuel (cur + dur) endT dur booked blocks
      else if blocks.any (fun b => b.startDT % 1440 ≤ cur && cur < b.endDT % 1440) then
        slotWalkV2Aux fuel (cur + dur) endT dur booked blocks
      else cur :: slotWalkV2Aux fuel (cur + dur) endT dur booked blocks
    else []

/-- Zero-padded two-digit rendering, as strftime pads the month. -/
def pad2 (n : Nat) : String :=
  if n < 10 then "0" ++ toString n else toString n

/-- The string `date_obj.strftime('%monday').lower()` actually produces:
`%m` formats the month, the rest is the literal `onday` (already lower
case, and digits are unchanged by lower). -/
def strftimeMondayLower (d : Date) : String :=
  pad2 d.month ++ "onday"

/-- Substring test (`'monday' in day_of_week` in the source). -/
def containsWord (hay needle : String) : Bool :=
  decide (needle.toList <:+: hay.toList)

/-- Day-of-week resolution of `get_available_slots_v2`, exactly as coded:
substring-match the weekday names against `strftime('%monday')` output,
falling through to sunday. -/
def resolveDayOfWeek (d : Date) : String :=
  let s := strftimeMondayLower d
  if containsWord s "monday" then "monday"
  else if containsWord s "tuesday" then "tuesday"
  else if containsWord s "wednesday" then "wednesday"
  else if containsWord s "thursday" then "thursday"
  else if containsWord s "friday" then "friday"
  else if containsWord s "saturday" then "saturday"
  else "sunday"

/-- `get_available_slots_v2` from views.py (after the request guards):
resolve the day name, look up that schedule row, return empty when absent
or unavailable, else walk the schedule interval dropping booked and
blocked slots. Blocks are those overlapping [date 00:00, date 23:59]. -/
def get_available_slots_v2 (st : PortalState) (docId : Nat) (date : Date) : List Nat :=
  let day := resolveDayOfWeek date
  match st.schedules.find? (fun s => s.doctorId == docId && s.dayOfWeek == day) with
  | none => []
  | some sch =>
    if !sch.isAvailable then []
    else
      let booked := (st.appointments.filter (fun a =>
          a.doctorId == docId && a.appointmentDate == date &&
          liveStatuses.contains a.status)).map (fun a => a.appointmentTime)
      let dayStart := toOrdinal date * 1440
      let dayEnd := toOrdinal date * 1440 + 1439
      let blocks := st.timeBlocks.filter (fun b =>
          b.doctorId == docId && b.startDT ≤ dayEnd && dayStart ≤ b.endDT)
      slotWalkV2Aux (sch.endTime + 1) sch.startTime sch.endTime sch.slotDuration booked blocks

/-- Round-half-even integer division: the rounding mode of the runtime
round function applied to the exact quotient n / d. -/
def roundHalfEvenDiv (n d : Nat) : Nat :=
  let q := n / d
  let r := n % d
  if 2 * r < d then q
  else if d < 2 * r then q + 1
  else if q % 2 == 0 then q else q + 1

/-- `Doctor.update_rating`: recompute the denormalized rating from the
approved reviews of this doctor. The average is the rounded mean in
hundredths, 0 when there are no approved reviews (`round(avg, 2) if avg
else 0` with a None average when no rows). -/
def update_rating (doc : Doctor) (reviews : List Review) : Doctor :=
  let approved := reviews.filter (fun r => r.doctorId == doc.id && r.isApproved)
  let avgCenti :=
    if approved.isEmpty then 0
    else roundHalfEvenDiv (100 * (approved.map (fun r => r.rating)).sum) approved.length
  { doc with averageRatingCenti := avgCenti, totalReviews := approved.length }

/-- Field updates shared by `update_appointment_status` and
`bulk_update_appointments`: set the new status, refresh `updated_at`,
and stamp `confirmed_at` / `completed_at` / `cancellation_reason` for the
approved / completed / cancelled targets. -/
def applyStatusFields (a : Appointment) (newStatus reason : String) (now : Nat) : Appointment :=
  let a1 := { a with status := newStatus, updatedAt := some now }
  if newStatus == "approved" then { a1 with confirmedAt := some now }
  else if newStatus == "completed" then { a1 with completedAt := some now }
  else if newStatus == "cancelled" then { a1 with cancellationReason := reason }
  else a1

/-- The `pre_save` hook `appointment_status_changed` from signals.py: on a
save of an existing appointment whose status differs from the stored one,
append a StatusHistory row and, when the appointment has a user, a
status-changed Notification. -/
def statusChangedSignal (st : PortalState) (inst : Appointment) : PortalState :=
  match st.appointments.find? (fun a => a.id == inst.id) with
  | none => st
  | some oldInst =>
    if oldInst.status ≠ inst.status then
      let doctorName :=
        ((st.doctors.find? (fun d => d.id == inst.doctorId)).map (fun d => d.name)).getD ""
      let st1 := { st with history := st.history ++
        [{ appointmentId := inst.id, oldStatus := oldInst.status, newStatus := inst.status,
           changedById := none,
           reason := "Status changed from " ++ oldInst.status ++ " to " ++ inst.status }] }
      match inst.userId with
      | some uid =>
        { st1 with notifications := st1.notifications ++
          [{ userId := uid, appointmentId := some inst.id, ntype := "status_changed",
             title := "Appointment Status Updated",
             message := "Your appointment with " ++ doctorName ++ " has been "
               ++ inst.status ++ "." }] }
      | none => st1
    else st

/-- The `post_save` hook `appointment_created` from signals.py: on
creation, notify the user whose username matches the doctor name. -/
def appointmentCreatedSignal (st : PortalState) (inst : Appointment) : PortalState :=
  let doctorName :=
    ((st.doctors.find? (fun d => d.id == inst.doctorId)).map (fun d => d.name)).getD ""
  match st.users.find? (fun u => u.username == doctorName) with
  | some du =>
    { st with notifications := st.notifications ++
      [{ userId := du.id, appointmentId := some inst.id, ntype := "appointment_created",
         title := "New Appointment Request",
         message := "New appointment request from " ++ inst.patientName ++ "." }] }
  | none => st

/-- A model save: for an existing row the `pre_save` status-change hook
fires and then the row is replaced; for a new row it is inserted and the
`post_save` created hook fires. -/
def saveAppointment (st : PortalState) (inst : Appointment) : PortalState :=
  if (st.appointments.find? (fun a => a.id == inst.id)).isSome then
    let st1 := statusChangedSignal st inst
    { st1 with appointments := st1.appointments.map (fun a => if a.id == inst.id then inst else a) }
  else
    let st1 := { st with appointments := st.appointments ++ [inst] }
    appointmentCreatedSignal st1 inst

/-- `update_appointment_status` core (after the permission guards): 404
when the appointment is missing, invalid-status error when the target is
not a recognized value, otherwise apply the field updates, save (firing
the hooks), append the explicit StatusHistory row, and when the status
changed and the appointment has a user append the explicit Notification. -/
def update_appointment_status (st : PortalState) (apptId : Nat) (actorId : Option Nat)
    (newStatus reason : String) (now : Nat) : Except String PortalState :=
  match st.appointments.find? (fun a => a.id == apptId) with
  | none => .error "Not found"
  | some appt =>
    if !(validStatuses.contains newStatus) then .error "Invalid status"
    else
      let oldStatus := appt.status
      let appt1 := applyStatusFields appt newStatus reason now
      let st1 := saveAppointment st appt1
      let st2 := { st1 with history := st1.history ++
        [{ appointmentId := apptId, oldStatus := oldStatus, newStatus := newStatus,
           changedById := actorId, reason := reason }] }
      let st3 :=
        if newStatus ≠ oldStatus then
          match appt.userId with
          | some uid =>
            { st2 with notifications := st2.notifications ++
              [{ userId := uid, appointmentId := some apptId, ntype := "status_changed",
                 title := "Appointment Status Updated",
                 message := "Your appointment status has been changed from " ++ oldStatus
                   ++ " to " ++ newStatus ++ "." }] }
          | none => st2
        else st2
      .ok st3

/-- `bulk_update_appointments` core (after the permission guards): reject
empty input or an unrecognized status, then for each id belonging to the
doctor apply the same field updates, save, history row and notification,
counting the rows actually updated; other ids are skipped. -/
def bulk_update_appointments (st : PortalState) (ids : List Nat) (docId : Nat)
    (actorId : Option Nat) (newStatus reason : String) (now : Nat) :
    Except String (PortalState × Nat) :=
  if ids.isEmpty || newStatus == "" then .error "Appointment IDs and new status are required"
  else if !(validStatuses.contains newStatus) then .error "Invalid status"
  else
    .ok (ids.foldl (fun (acc : PortalState × Nat) i =>
      match acc.1.appointments.find? (fun a => a.id == i && a.doctorId == docId) with
      | none => acc
      | some appt =>
        let appt1 := applyStatusFields appt newStatus reason now
        let st1 := saveAppointment acc.1 appt1
        let st2 := { st1 with history := st1.history ++
          [{ appointmentId := appt.id, oldStatus := appt.status, newStatus := newStatus,
             changedById := actorId,
             reason := if reason == "" then "Bulk update" else reason }] }
        let st3 :=
          match appt.userId with
          | some uid =>
            { st2 with notifications := st2.notifications ++
              [{ userId := uid, appointmentId := some appt.id, ntype := "status_changed",
                 title := "Appointment Status Updated",
                 message := "Your appointment has been " ++ newStatus ++ " (bulk update)." }] }
          | none => st2
        (st3, acc.2 + 1)) (st, 0))

/-- Per-reminder step of the reminder sweep (`send_pending_reminders` and
the send_reminders command): a reminder is touched only when unsent and
due; for the email and both channels a successful send marks it sent with
timestamp and channel, a failed send records the error and leaves it
unsent; other channels are untouched. `sendOk` abstracts the outcome of
the mail call. -/
def sweepOne (sendOk : Bool) (now : Int) (r : AppointmentReminder) : AppointmentReminder :=
  if ¬ r.isSent ∧ r.scheduledFor ≤ now then
    if r.reminderType = "email" ∨ r.reminderType = "both" then
      if sendOk then
        { r with isSent := true, sentAt := some now, sentVia := some "email" }
      else
        { r with errorMessage := some "send failed" }
    else r
  else r

/-- The sweep over the reminder table: every row gets the per-reminder
step (rows outside the unsent-and-due selection are unchanged by it). -/
def send_pending_reminders (sendOk : AppointmentReminder → Bool) (now : Int)
    (rs : List AppointmentReminder) : List AppointmentReminder :=
  rs.map (fun r => sweepOne (sendOk r) now r)

/-- Reminder creation from `manage_reminders` (action add_reminder):
`scheduled_for = combine(appointment date, appointment time) - offset`. -/
def create_reminder (nextId : Nat) (a : Appointment) (rtype : String) (hbMinutes : Nat) :
    AppointmentReminder :=
  { id := nextId, appointmentId := a.id, reminderType := rtype,
    hoursBeforeMinutes := hbMinutes, isSent := false, sentAt := none,
    sentVia := none, errorMessage := none,
    scheduledFor := (combineMinutes a.appointmentDate a.appointmentTime : Int) - hbMinutes }

/-- Success test for the Except results of the update operations. -/
def exceptOk {ε α : Type} : Except ε α → Bool
  | .ok _ => true
  | .error _ => false

lemma availWalkAux_eq_filter (fuel : Nat) (bk : List Nat) (cur endT : Nat) :
    availWalkAux fuel bk cur endT
      = (hourWalkAux fuel cur endT).filter (fun t => !bk.contains t) := by
  induction fuel generalizing cur with
  | zero => simp [availWalkAux, hourWalkAux]
  | succ f ih =>
    by_cases h : cur < endT
    · by_cases hb : bk.contains cur
      · simp [availWalkAux, hourWalkAux, h, hb, List.filter_cons, ih]
      · simp [availWalkAux, hourWalkAux, h, hb, List.filter_cons, ih]
    · simp [availWalkAux, hourWalkAux, h]

lemma applyStatusFields_id (a : Appointment) (ns r : String) (now : Nat) :
    (applyStatusFields a ns r now).id = a.id := by
  unfold applyStatusFields
  split <;> try rfl
  split <;> try rfl
  split <;> rfl

lemma statusChangedSignal_appointments (st : PortalState) (inst : Appointment) :
    (statusChangedSignal st inst).appointments = st.appointments := by
  unfold statusChangedSignal
  cases h : st.appointments.find? (fun a => a.id == inst.id) with
  | none => rfl
  | some oldInst =>
    dsimp only
    by_cases hs : oldInst.status ≠ inst.status
    · rw [if_pos hs]
      cases inst.userId <;> rfl
    · rw [if_neg hs]

lemma find?_map_replace (l : List Appointment) (pid : Nat) (inst : Appointment)
    (hid : inst.id = pid) (a : Appointment)
    (h : l.find? (fun x => x.id == pid) = some a) :
    (l.map (fun x => if x.id == pid then inst else x)).find? (fun x => x.id == pid)
      = some inst := by
  induction l with
  | nil => simp at h
  | cons hd tl ih =>
    by_cases hh : (hd.id == pid) = true
    · simp only [List.map_cons, if_pos hh]
      simp [List.find?_cons, hid]
    · rw [List.find?_cons_of_neg (p := fun x => x.id == pid) (a := hd) tl hh] at h
      simp only [List.map_cons, if_neg hh]
      rw [List.find?_cons_of_neg (p := fun x => x.id == pid) (a := hd) _ hh]
      exact ih h

lemma applyStatusFields_status (a : Appointment) (ns r : String) (now : Nat) :
    (applyStatusFields a ns r now).status = ns := by
  unfold applyStatusFields
  split <;> try rfl
  split <;> try rfl
  split <;> rfl

lemma find_in_save (st : PortalState) (a inst : Appointment) (apptId : Nat)
    (h : st.appointments.find? (fun x => x.id == apptId) = some a)
    (h1 : inst.id = apptId) :
    (saveAppointment st inst).appointments.find? (fun x => x.id == apptId) = some inst := by
  unfold saveAppointment
  have hc : (st.appointments.find? (fun x => x.id == inst.id)).isSome = true := by
    rw [h1, h]; rfl
  rw [if_pos hc]
  dsimp only
  rw [statusChangedSignal_appointments]
  simp only [h1]
  exact find?_map_replace st.appointments apptId inst h1 a h

lemma update_status_err (st : PortalState) (apptId : Nat) (actorId : Option Nat)
    (ns r : String) (now : Nat) (a : Appointment)
    (h : st.appointments.find? (fun x => x.id == apptId) = some a)
    (hv : validStatuses.contains ns = false) :
    update_appointment_status st apptId actorId ns r now = .error "Invalid status" := by
  unfold update_appointment_status
  rw [h]
  dsimp only
  rw [if_pos (show (!validStatuses.contains ns) = true by rw [hv]; rfl)]

lemma update_status_ok_eq (st : PortalState) (apptId : Nat) (actorId : Option Nat)
    (ns r : String) (now : Nat) (a : Appointment)
    (h : st.appointments.find? (fun x => x.id == apptId) = some a)
    (hv : validStatuses.contains ns = true) :
    ∃ st', update_appointment_status st apptId actorId ns r now = .ok st' ∧
      st'.appointments.find? (fun x => x.id == apptId)
        = some (applyStatusFields a ns r now) := by
  have ha : a.id = apptId := by simpa using List.find?_some h
  have h1 : (applyStatusFields a ns r now).id = apptId := by rw [applyStatusFields_id, ha]
  unfold update_appointment_status
  rw [h]
  dsimp only
  rw [if_neg (show ¬ ((!validStatuses.contains ns) = true) by rw [hv]; simp)]
  refine ⟨_, rfl, ?_⟩
  split
  · cases a.userId <;> dsimp only <;> exact find_in_save st a _ apptId h h1
  · dsimp only
    exact find_in_save st a _ apptId h h1

lemma mem_slotWalkV2Aux_not_blocked (fuel : Nat) (cur endT dur : Nat) (bk : List Nat)
    (bl : List TimeBlock) (t : Nat)
    (ht : t ∈ slotWalkV2Aux fuel cur endT dur bk bl) :
    bl.any (fun b => b.startDT % 1440 ≤ t && t < b.endDT % 1440) = false := by
  induction fuel generalizing cur with
  | zero => simp [slotWalkV2Aux] at ht
  | succ f ih =>
    simp only [slotWalkV2Aux] at ht
    by_cases h1 : cur + dur ≤ endT
    · rw [if_pos h1] at ht
      by_cases h2 : bk.contains cur = true
      · rw [if_pos h2] at ht
        exact ih _ ht
      · rw [if_neg h2] at ht
        by_cases h3 : bl.any (fun b => b.startDT % 1440 ≤ cur && cur < b.endDT % 1440) = true
        · rw [if_pos h3] at ht
          exact ih _ ht
        · rw [if_neg h3] at ht
          rcases List.mem_cons.mp ht with h4 | h4
          · subst h4
            exact Bool.not_eq_true _ ▸ (by simpa using h3)
          · exact ih _ h4
    · rw [if_neg h1] at ht
      simp at ht

/-- Sample appointment used for the concrete evaluations: live (pending),
booked with doctor 3 on Monday 2024-06-10 at 10:00, owned by user 7. -/
def apptA : Appointment :=
  { id := 1, patientName := "alice", patientEmail := "alice@example.com",
    patientPhone := "123", doctorId := 3, appointmentDate := ⟨2024, 6, 10⟩,
    appointmentTime := 600, status := "pending", priority := "normal",
    reason := "checkup", notes := "", cancellationReason := "",
    confirmedAt := none, completedAt := none, updatedAt := none, userId := some 7 }

/-- Sample state holding only `apptA`, with its doctor and users. -/
def stA : PortalState :=
  { users := [⟨5, "drbob"⟩, ⟨7, "alice"⟩],
    doctors := [{ id := 3, name := "drbob", averageRatingCenti := 0, totalReviews := 0 }],
    appointments := [apptA], history := [], notifications := [],
    schedules := [], timeBlocks := [] }

/-- The same datastore contents as `stA` but with a weekly schedule row and
a time block added, for the independence half of the simple slot function. -/
def stAWithSchedule : PortalState :=
  { stA with
    schedules := [{ doctorId := 3, dayOfWeek := "monday", startTime := 480, endTime := 720,
                    isAvailable := false, maxAppointments := 2, slotDuration := 30 }],
    timeBlocks := [{ doctorId := 3, startDT := 739047 * 1440 + 540,
                     endDT := 739047 * 1440 + 1020, reason := "vacation" }] }

/-- State for the day-resolution evaluation: doctor 7 has a Monday-only
schedule of 09:00 to 17:00 with 60-minute slots, and nothing else. -/
def stMondayOnly : PortalState :=
  { users := [], doctors := [{ id := 7, name := "drx", averageRatingCenti := 0, totalReviews := 0 }],
    appointments := [], history := [], notifications := [],
    schedules := [{ doctorId := 7, dayOfWeek := "monday", startTime := 540, endTime := 1020,
                    isAvailable := true, maxAppointments := 8, slotDuration := 60 }],
    timeBlocks := [] }

/-- State for the blocked-interval evaluation: doctor 7 has a Sunday
schedule of 09:00 to 17:00 with 60-minute slots, no appointments, and one
time block covering 12:00 to 13:00 on Sunday 2024-06-09 (ordinal day
739046). -/
def stSundayBlocked : PortalState :=
  { users := [], doctors := [{ id := 7, name := "drx", averageRatingCenti := 0, totalReviews := 0 }],
    appointments := [], history := [], notifications := [],
    schedules := [{ doctorId := 7, dayOfWeek := "sunday", startTime := 540, endTime := 1020,
                    isAvailable := true, maxAppointments := 8, slotDuration := 60 }],
    timeBlocks := [{ doctorId := 7, startDT := 739046 * 1440 + 720,
                     endDT := 739046 * 1440 + 780, reason := "meeting" }] }

/-- Sample doctor for the rating evaluations. -/
def docR : Doctor := { id := 2, name := "drr", averageRatingCenti := 0, totalReviews := 0 }

/-- Three approved reviews for doctor 2 with ratings 4, 5 and 3. -/
def reviews453 : List Review :=
  [⟨2, 11, none, 4, true⟩, ⟨2, 12, none, 5, true⟩, ⟨2, 13, none, 3, true⟩]

/-- Three approved reviews for doctor 2 with ratings 3, 3 and 4 (mean
10 / 3, exercising the two-decimal rounding). -/
def reviews334 : List Review :=
  [⟨2, 11, none, 3, true⟩, ⟨2, 12, none, 3, true⟩, ⟨2, 14, none, 4, true⟩]

/-- A due, unsent email reminder. -/
def remDue : AppointmentReminder :=
  { id := 1, appointmentId := 1, reminderType := "email", hoursBeforeMinutes := 1440,
    isSent := false, sentAt := none, sentVia := none, errorMessage := none,
    scheduledFor := 50 }

/-- C2: the booking validator reports a collision exactly when a live
(pending, approved or scheduled) appointment for the same doctor, date and
time exists; the reschedule check excludes the appointment being moved, so
when every live appointment at the slot of `self` is `self` itself (the
live-slot uniqueness invariant), rescheduling `self` to its own current
date and time raises no collision. -/
theorem claim_C2_collision_iff_live_and_self_exclusion
    (appts : List Appointment) (docId : Nat) (d : Date) (t : Nat) (self : Appointment)
    (hself : ∀ b ∈ appts, b.doctorId = self.doctorId →
      b.appointmentDate = self.appointmentDate →
      b.appointmentTime = self.appointmentTime → b.status ∈ liveStatuses → b.id = self.id) :
    (bookingConflictExists appts docId d t = true ↔
      ∃ a ∈ appts, a.doctorId = docId ∧ a.appointmentDate = d ∧ a.appointmentTime = t ∧
        a.status ∈ liveStatuses) ∧
    rescheduleConflictExists appts self.doctorId self.appointmentDate
      self.appointmentTime self.id = false := by
  constructor
  · simp only [bookingConflictExists, List.any_eq_true, Bool.and_eq_true, beq_iff_eq,
      List.contains_iff_exists_mem_beq]
    constructor
    · rintro ⟨a, ha, ⟨⟨h1, h2⟩, h3⟩, s, hs, hbeq⟩
      exact ⟨a, ha, h1, h2, h3, by rw [show a.status = s from by simpa using hbeq]; exact hs⟩
    · rintro ⟨a, ha, h1, h2, h3, h4⟩
      exact ⟨a, ha, ⟨⟨h1, h2⟩, h3⟩, a.status, h4, by simp⟩
  · rw [show (rescheduleConflictExists appts self.doctorId self.appointmentDate
      self.appointmentTime self.id = false) ↔
      ¬ (rescheduleConflictExists appts self.doctorId self.appointmentDate
        self.appointmentTime self.id = true) by simp]
    intro hc
    simp only [rescheduleConflictExists, List.any_eq_true, Bool.and_eq_true, beq_iff_eq,
      bne_iff_ne, ne_eq, List.contains_iff_exists_mem_beq] at hc
    rcases hc with ⟨a, ha, ⟨⟨⟨h1, h2⟩, h3⟩, s, hs, hbeq⟩, hne⟩
    exact hne (hself a ha h1 h2 h3 (by rw [show a.status = s from by simpa using hbeq]; exact hs))

/-- C2 witness: with one live appointment in the store, its own reschedule
check to its current slot reports no collision, and the booking check
reports the collision that live appointment causes. -/
theorem claim_C2_witness :
    rescheduleConflictExists [apptA] apptA.doctorId apptA.appointmentDate
      apptA.appointmentTime apptA.id = false ∧
    bookingConflictExists [apptA] 3 ⟨2024, 6, 10⟩ 600 = true := by
  constructor
  · exact (claim_C2_collision_iff_live_and_self_exclusion [apptA] 3 ⟨2024, 6, 10⟩ 600 apptA
      (by intro b hb _ _ _ _; simp only [List.mem_singleton] at hb; rw [hb])).2
  · exact (claim_C2_collision_iff_live_and_self_exclusion [apptA] 3 ⟨2024, 6, 10⟩ 600 apptA
      (by intro b hb _ _ _ _; simp only [List.mem_singleton] at hb; rw [hb])).1.mpr
      ⟨apptA, by simp, rfl, rfl, rfl, by decide⟩

/-- C3: the booking-page slot computation depends only on the appointment
table — two states with the same appointments give the same slots whatever
their schedule rows and time blocks — and for a present date it returns
exactly the hourly times 09:00 (540) through 16:00 (960) minus the times
of live appointments of that doctor on that date. -/
theorem claim_C3_simple_slots_ignore_schedules_and_blocks
    (st st' : PortalState) (docId : Nat) (d : Date)
    (h : st.appointments = st'.appointments) :
    get_available_time_slots st docId (some d) = get_available_time_slots st' docId (some d) ∧
    get_available_time_slots st docId (some d)
      = [540, 600, 660, 720, 780, 840, 900, 960].filter (fun t =>
          !((st.appointments.filter (fun a =>
              a.doctorId == docId && a.appointmentDate == d &&
              liveStatuses.contains a.status)).map (fun a => a.appointmentTime)).contains t) := by
  constructor
  · unfold get_available_time_slots
    rw [h]
  · unfold get_available_time_slots
    dsimp only
    rw [availWalkAux_eq_filter]
    rfl

/-- C3 witness: the two sample states share the appointment table but
differ in schedule rows (an unavailable Monday entry) and time blocks (a
block covering the whole Monday), yet the simple slot computation agrees,
and its value is the hourly walk minus the one booked time 600. -/
theorem claim_C3_witness :
    get_available_time_slots stA 3 (some ⟨2024, 6, 10⟩)
      = get_available_time_slots stAWithSchedule 3 (some ⟨2024, 6, 10⟩) ∧
    get_available_time_slots stA 3 (some ⟨2024, 6, 10⟩)
      = [540, 660, 720, 780, 840, 900, 960] := by
  refine ⟨(claim_C3_simple_slots_ignore_schedules_and_blocks stA stAWithSchedule 3
    ⟨2024, 6, 10⟩ rfl).1, ?_⟩
  rfl

/-- C5: a candidate slot of the schedule-aware generation is excluded
whenever some time block of the doctor overlapping the requested date
(block start at or before 23:59 of the date, block end at or after 00:00)
covers the slot start under the time-of-day test
block_start ≤ slot < block_end; concretely, with a block covering 12:00
to 13:00 and no appointments at all, the 12:00 (720) slot is missing from
the returned 09:00 to 16:00 hourly slots. -/
theorem claim_C5_blocked_interval_excludes_slot
    (st : PortalState) (docId : Nat) (date : Date) (t : Nat)
    (hblocked : ∃ b ∈ st.timeBlocks, b.doctorId = docId ∧
      b.startDT ≤ toOrdinal date * 1440 + 1439 ∧ toOrdinal date * 1440 ≤ b.endDT ∧
      b.startDT % 1440 ≤ t ∧ t < b.endDT % 1440) :
    t ∉ get_available_slots_v2 st docId date ∧
    get_available_slots_v2 stSundayBlocked 7 ⟨2024, 6, 9⟩
      = [540, 600, 660, 780, 840, 900, 960] := by
  refine ⟨?_, by rfl⟩
  intro ht
  unfold get_available_slots_v2 at ht
  dsimp only at ht
  cases hf : st.schedules.find? (fun s =>
      s.doctorId == docId && s.dayOfWeek == resolveDayOfWeek date) with
  | none =>
    rw [hf] at ht
    simp at ht
  | some sch =>
    rw [hf] at ht
    dsimp only at ht
    by_cases hav : (!sch.isAvailable) = true
    · rw [if_pos hav] at ht
      simp at ht
    · rw [if_neg hav] at ht
      have hnb := mem_slotWalkV2Aux_not_blocked _ _ _ _ _ _ t ht
      rcases hblocked with ⟨b, hb, h1, h2, h3, h4, h5⟩
      have hmem : b ∈ st.timeBlocks.filter (fun b =>
          b.doctorId == docId && b.startDT ≤ toOrdinal date * 1440 + 1439 &&
          toOrdinal date * 1440 ≤ b.endDT) := by
        rw [List.mem_filter]
        exact ⟨hb, by simp [h1, h2, h3]⟩
      have htrue : (st.timeBlocks.filter (fun b =>
          b.doctorId == docId && b.startDT ≤ toOrdinal date * 1440 + 1439 &&
          toOrdinal date * 1440 ≤ b.endDT)).any
            (fun b => b.startDT % 1440 ≤ t && t < b.endDT % 1440) = true := by
        rw [List.any_eq_true]
        exact ⟨b, hmem, by simp [h4, h5]⟩
      rw [htrue] at hnb
      cases hnb

/-- C5 witness: in the Sunday sample state the block from 12:00 to 13:00
on 2024-06-09 overlaps that date and covers 720, so slot 720 is excluded
from the generated slots. -/
theorem claim_C5_witness :
    (720 : Nat) ∉ get_available_slots_v2 stSundayBlocked 7 ⟨2024, 6, 9⟩ := by
  exact (claim_C5_blocked_interval_excludes_slot stSundayBlocked 7 ⟨2024, 6, 9⟩ 720
    ⟨{ doctorId := 7, startDT := 739046 * 1440 + 720, endDT := 739046 * 1440 + 780,
       reason := "meeting" }, by decide, by decide, by decide, by decide, by decide,
       by decide⟩).1

/-- C6: the rating recomputation sets total_reviews to the number of
approved reviews of the doctor and average_rating (in hundredths) to the
mean of their ratings rounded to two decimals, 0 when there are none;
approving ratings 4, 5 and 3 yields average 4.00 (400) with count 3, and
ratings 3, 3 and 4 yield 3.33 (333) with count 3. -/
theorem claim_C6_rating_recompute (doc : Doctor) (reviews : List Review) :
    (update_rating doc reviews).totalReviews
      = (reviews.filter (fun r => r.doctorId == doc.id && r.isApproved)).length ∧
    (reviews.filter (fun r => r.doctorId == doc.id && r.isApproved) = [] →
      (update_rating doc reviews).averageRatingCenti = 0) ∧
    (reviews.filter (fun r => r.doctorId == doc.id && r.isApproved) ≠ [] →
      (update_rating doc reviews).averageRatingCenti
        = roundHalfEvenDiv
            (100 * ((reviews.filter (fun r => r.doctorId == doc.id && r.isApproved)).map
              (fun r => r.rating)).sum)
            (reviews.filter (fun r => r.doctorId == doc.id && r.isApproved)).length) ∧
    update_rating docR reviews453 = { docR with averageRatingCenti := 400, totalReviews := 3 } ∧
    update_rating docR reviews334 = { docR with averageRatingCenti := 333, totalReviews := 3 } := by
  refine ⟨rfl, ?_, ?_, by rfl, by rfl⟩
  · intro h
    unfold update_rating
    dsimp only
    rw [h]
    rfl
  · intro hne
    unfold update_rating
    dsimp only
    rw [if_neg (by simpa using hne)]

/-- C6 witness: applying the recomputation statement at the ratings
4, 5, 3 sample discharges the nonemptiness hypothesis and evaluates the
rounded mean, 1200 / 3 hundredths = 400. -/
theorem claim_C6_witness :
    (update_rating docR reviews453).averageRatingCenti
      = roundHalfEvenDiv (100 * 12) 3 ∧ roundHalfEvenDiv (100 * 12) 3 = 400 := by
  have h := (claim_C6_rating_recompute docR reviews453).2.2.1 (by decide)
  exact ⟨by rw [h]; rfl, by decide⟩

/-- C7: the status update fails exactly when the requested target is not
one of the eight recognized status values (the success flag equals the
membership test, whatever the current status is), and on success the
stored appointment is the field update applied to the old one, whose
status is the requested target — so any recognized status may follow any
other. -/
theorem claim_C7_invalid_status_rejected_any_transition
    (st : PortalState) (apptId : Nat) (actorId : Option Nat) (ns r : String) (now : Nat)
    (a : Appointment) (h : st.appointments.find? (fun x => x.id == apptId) = some a) :
    exceptOk (update_appointment_status st apptId actorId ns r now)
      = validStatuses.contains ns ∧
    (∀ st', update_appointment_status st apptId actorId ns r now = .ok st' →
      st'.appointments.find? (fun x => x.id == apptId) = some (applyStatusFields a ns r now) ∧
      (applyStatusFields a ns r now).status = ns) := by
  constructor
  · cases hv : validStatuses.contains ns with
    | false =>
      rw [update_status_err st apptId actorId ns r now a h hv]
      rfl
    | true =>
      obtain ⟨st', heq, -⟩ := update_status_ok_eq st apptId actorId ns r now a h hv
      rw [heq]
      rfl
  · intro st' heq
    cases hv : validStatuses.contains ns with
    | false =>
      rw [update_status_err st apptId actorId ns r now a h hv] at heq
      cases heq
    | true =>
      obtain ⟨st'', heq2, hfind⟩ := update_status_ok_eq st apptId actorId ns r now a h hv
      rw [heq2] at heq
      injection heq with h3
      subst h3
      exact ⟨hfind, applyStatusFields_status a ns r now⟩

/-- C7 witness: in the sample state a pending appointment may be set
directly to rejected (recognized value, success) while the unrecognized
target bogus fails. -/
theorem claim_C7_witness :
    exceptOk (update_appointment_status stA 1 (some 5) "rejected" "" 77) = true ∧
    exceptOk (update_appointment_status stA 1 (some 5) "bogus" "" 77) = false := by
  have h1 := claim_C7_invalid_status_rejected_any_transition stA 1 (some 5) "rejected" "" 77
    apptA rfl
  have h2 := claim_C7_invalid_status_rejected_any_transition stA 1 (some 5) "bogus" "" 77
    apptA rfl
  exact ⟨h1.1.trans (by decide), h2.1.trans (by decide)⟩

/-- C8: the shared field update of the single and bulk status paths stamps
the confirmation time on approved, the completion time on completed and
the cancellation reason on cancelled, while leaving the doctor, date,
time, patient fields and priority unchanged; the concrete bulk run over
one appointment updates exactly one row and exhibits the same stamps and
frame. -/
theorem claim_C8_status_stamps_and_frame (a : Appointment) (ns r : String) (now : Nat) :
    ((ns = "approved" → (applyStatusFields a ns r now).confirmedAt = some now) ∧
     (ns = "completed" → (applyStatusFields a ns r now).completedAt = some now) ∧
     (ns = "cancelled" → (applyStatusFields a ns r now).cancellationReason = r)) ∧
    ((applyStatusFields a ns r now).doctorId = a.doctorId ∧
     (applyStatusFields a ns r now).appointmentDate = a.appointmentDate ∧
     (applyStatusFields a ns r now).appointmentTime = a.appointmentTime ∧
     (applyStatusFields a ns r now).patientName = a.patientName ∧
     (applyStatusFields a ns r now).patientEmail = a.patientEmail ∧
     (applyStatusFields a ns r now).patientPhone = a.patientPhone ∧
     (applyStatusFields a ns r now).priority = a.priority) ∧
    (bulk_update_appointments stA [1] 3 (some 5) "cancelled" "personal" 99).map
      (fun p => (p.2, (p.1.appointments.find? (fun x => x.id == 1)).map
        (fun x => (x.status, x.cancellationReason, x.doctorId, x.appointmentTime,
                   x.priority, x.patientName))))
      = .ok (1, some ("cancelled", "personal", 3, 600, "normal", "alice")) := by
  refine ⟨⟨?_, ?_, ?_⟩, ?_, by rfl⟩
  · intro hns
    subst hns
    rfl
  · intro hns
    subst hns
    rfl
  · intro hns
    subst hns
    rfl
  · unfold applyStatusFields
    split_ifs <;> exact ⟨rfl, rfl, rfl, rfl, rfl, rfl, rfl⟩

/-- C8 witness: applying the stamps at the sample appointment for the
cancelled and approved targets. -/
theorem claim_C8_witness :
    (applyStatusFields apptA "cancelled" "personal" 99).cancellationReason = "personal" ∧
    (applyStatusFields apptA "approved" "" 99).confirmedAt = some 99 := by
  exact ⟨(claim_C8_status_stamps_and_frame apptA "cancelled" "personal" 99).1.2.2 rfl,
         (claim_C8_status_stamps_and_frame apptA "approved" "" 99).1.1 rfl⟩

/-- C9: for a due unsent email reminder whose send succeeds, one sweep
step flips is_sent to true, a second sweep step leaves the sent reminder
exactly as it is (whatever its send outcome would be), and in general any
reminder already marked sent is never modified by a sweep step. -/
theorem claim_C9_reminder_sweep_sends_at_most_once
    (ok2 : Bool) (now : Int) (r : AppointmentReminder)
    (h1 : r.isSent = false) (h2 : r.scheduledFor ≤ now)
    (h3 : r.reminderType = "email" ∨ r.reminderType = "both") :
    (sweepOne true now r).isSent = true ∧
    sweepOne ok2 now (sweepOne true now r) = sweepOne true now r ∧
    (∀ r2 : AppointmentReminder, r2.isSent = true → sweepOne ok2 now r2 = r2) := by
  have hsent : sweepOne true now r
      = { r with isSent := true, sentAt := some now, sentVia := some "email" } := by
    unfold sweepOne
    rw [if_pos ⟨by simp [h1], h2⟩, if_pos h3, if_pos rfl]
  have hnomore : ∀ r2 : AppointmentReminder, r2.isSent = true → sweepOne ok2 now r2 = r2 := by
    intro r2 hs
    unfold sweepOne
    rw [if_neg (by simp [hs])]
  refine ⟨by rw [hsent], ?_, hnomore⟩
  rw [hsent]
  exact hnomore _ rfl

/-- C9 witness: the sample due unsent reminder is sent by the first sweep
step and untouched by the second. -/
theorem claim_C9_witness :
    (sweepOne true 100 remDue).isSent = true ∧
    sweepOne false 100 (sweepOne true 100 remDue) = sweepOne true 100 remDue := by
  have h := claim_C9_reminder_sweep_sends_at_most_once false 100 remDue rfl (by decide)
    (Or.inl rfl)
  exact ⟨h.1, h.2.1⟩

/-- C10: a created reminder has scheduled_for equal to the combined
appointment date and time minus the hour offset (here in minutes), and
the 24-hour reminder for the sample appointment at 2024-06-10 10:00 is
scheduled for 2024-06-09 10:00. -/
theorem claim_C10_reminder_scheduled_for :
    (∀ (nid : Nat) (a : Appointment) (rt : String) (hrs : Nat),
      (create_reminder nid a rt (60 * hrs)).scheduledFor
        = (combineMinutes a.appointmentDate a.appointmentTime : Int) - (60 * hrs : Nat)) ∧
    (create_reminder 2 apptA "email" 1440).scheduledFor
      = (combineMinutes ⟨2024, 6, 9⟩ 600 : Int) := by
  exact ⟨fun nid a rt hrs => rfl, by decide⟩

/-- C1: evaluating the status-update operation on the sample state (one
pending appointment owned by user 7) with target approved shows that two
StatusHistory rows and two Notifications to the patient are produced for
the single transition, one pair from the pre-save hook fired by the save
and one pair from the explicit code after it. -/
theorem claim_C1_duplicate_history_and_notification_on_status_change :
    (update_appointment_status stA 1 (some 5) "approved" "ok" 1000).map
      (fun st => ((st.history.filter (fun hrec => hrec.appointmentId == 1)).length,
                  (st.notifications.filter (fun n => n.userId == 7)).length))
      = .ok (2, 2) := by rfl

/-- C4: 2024-06-10 is a Monday (weekday 0), yet the day-of-week
resolution of the schedule-aware slot view formats the date as 06onday
and falls through every weekday test to sunday, so for a doctor whose
only schedule row is Monday 09:00 to 17:00 with 60-minute slots the view
returns no slots on that Monday; the underlying slot walk itself is
correct, producing the eight slots 540..960 for the 09:00 to 17:00
60-minute schedule and discarding the final partial step for a 50-minute
duration. -/
theorem claim_C4_day_resolution_bug_evaluation :
    pythonWeekday ⟨2024, 6, 10⟩ = 0 ∧
    strftimeMondayLower ⟨2024, 6, 10⟩ = "06onday" ∧
    resolveDayOfWeek ⟨2024, 6, 10⟩ = "sunday" ∧
    get_available_slots_v2 stMondayOnly 7 ⟨2024, 6, 10⟩ = [] ∧
    get_time_slots 540 1020 60 = [540, 600, 660, 720, 780, 840, 900, 960] ∧
    get_time_slots 540 1020 50 = [540, 590, 640, 690, 740, 790, 840, 890, 940] := by
  exact ⟨rfl, by decide, by decide, rfl, rfl, rfl⟩
